import Mathlib

/-!
Peer verification (SMP) controller of coyim, `gui/verifier.go`.

A shallow embedding of the `verifier` of `gui/verifier.go`.  Widgets are
represented by the part of their state the controller reads or writes
(visibility, label text, entry text, sensitivity), the session by the list
of calls it has received, and the notification area by the list of info
bars handed to `Add`, in order.  Go strings are Lean strings; every
character the embedded code inspects is ASCII, so nothing depends on the
difference between bytes and code points.
-/

namespace Coyim

/-! ## Strings, formatting, the regular expression -/

/-- Substitution of the single `%s` verb of a format string, as done by
`fmt.Sprintf` for a format holding one `%s` and a string argument. -/
def sprintfS : List Char → List Char → List Char
  | [], _ => []
  | [c], _ => [c]
  | c :: d :: rest, arg =>
      if c = '%' ∧ d = 's' then arg ++ rest else c :: sprintfS (d :: rest) arg

/-- Modelled from the spec: the package `i18n` is not among the sources and
localisation is out of scope; `Local` is the untranslated message
catalogue, which returns its argument. -/
def i18n.Local (s : String) : String := s

/-- Modelled from the spec: `i18n.Localf` (package `i18n`, not among the
sources) formats the localised format string with its argument. -/
def i18n.Localf (format arg : String) : String :=
  String.mk (sprintfS (i18n.Local format).data arg.data)

/-- One instruction of a compiled pattern: a literal character, or `.`,
which in Go's `regexp` stands for any character but a newline. -/
inductive Inst
  | char (c : Char)
  | anyCharNotNL
  deriving DecidableEq, Repr

/-- Whether an instruction accepts a character. -/
def Inst.accepts : Inst → Char → Bool
  | .char c, x => decide (x = c)
  | .anyCharNotNL, x => decide (x ≠ '\n')

/-- The program `regexp.MustCompile` yields for a pattern whose only
metacharacter is `.`: the pattern of `coyIMQuestion` is made of letters,
blanks and one final `.`. -/
def regexpMustCompile (pattern : String) : List Inst :=
  pattern.data.map (fun c => if c = '.' then Inst.anyCharNotNL else Inst.char c)

/-- The program matches a prefix of the input. -/
def matchHere : List Inst → List Char → Bool
  | [], _ => true
  | _ :: _, [] => false
  | i :: is, c :: cs => i.accepts c && matchHere is cs

/-- The unanchored search of `(*Regexp).MatchString`: the program matches
at some position of the input. -/
def matchFrom (prog : List Inst) : List Char → Bool
  | [] => matchHere prog []
  | c :: cs => matchHere prog (c :: cs) || matchFrom prog cs

/-- The method `(*Regexp).MatchString`. -/
def MatchString (prog : List Inst) (s : String) : Bool := matchFrom prog s.data

/-- The question sent with `StartSMP` (`var question`). -/
def question : String := "Please enter the PIN that I shared with you."

/-- The compiled `var coyIMQuestion`. -/
def coyIMQuestion : List Inst :=
  regexpMustCompile "Please enter the PIN that I shared with you."

/-! ## The verifier and its widgets -/

/-- A call received by `access.Session`. -/
inductive SMPCall
  | StartSMP (peer resource question secret : String)
  | FinishSMP (peer resource answer : String)
  | AbortSMP (peer resource : String)
  deriving DecidableEq, Repr

/-- An info bar handed to the notification area; `errInfoBar i` is the
`i`-th bar built by `showNotificationWhenWeCannotGeneratePINForSMP`. -/
inductive InfoBar
  | unverifiedWarning
  | waitingForPeer
  | peerRequestsSMP
  | errInfoBar (i : Nat)
  deriving DecidableEq, Repr

/-- The `GeneratePIN` dialog: visibility of `d`, text of the two labels. -/
structure pinWindow where
  d : Bool
  prompt : String
  pin : String
  deriving DecidableEq, Repr

/-- The `AnswerSMPQuestion` dialog: visibility of `d`, the question label,
the answer entry, sensitivity of the submit button. -/
structure answerSMPWindow where
  d : Bool
  question : String
  answer : String
  submitButton : Bool
  deriving DecidableEq, Repr

/-- The `UnverifiedWarning` info bar. -/
structure unverifiedWarning where
  infobar : Bool
  msg : String
  deriving DecidableEq, Repr

/-- The `WaitingSMPComplete` info bar. -/
structure waitingForPeerNotification where
  bar : Bool
  msg : String
  deriving DecidableEq, Repr

/-- The `PeerRequestsSMP` info bar; `verifyButton` lists the questions
captured by the handlers connected to the button, in connection order. -/
structure peerRequestsSMPNotification where
  infobar : Bool
  msg : String
  verifyButton : List String
  deriving DecidableEq, Repr

/-- A message widget built on demand (`CannotVerifyWithSMP`,
`VerificationSucceeded`): its text and whether it is shown. -/
structure messageWidget where
  msg : String
  shown : Bool
  deriving DecidableEq, Repr

/-- The state of a `verifier` together with what it acts on: the calls the
session received, the children added to the notification area, the widgets
built on demand, and `peerIsVerified`, the value the injected predicate
returns when it is called in this state. -/
structure verifier where
  currentResource : String
  session : List SMPCall
  notifier : List InfoBar
  peerName : String
  peerJid : String
  pinWindow : pinWindow
  answerSMPWindow : answerSMPWindow
  smpFailed : Bool
  waitingForPeer : waitingForPeerNotification
  peerRequestsSMP : peerRequestsSMPNotification
  unverifiedWarning : unverifiedWarning
  peerIsVerified : Bool
  errInfoBars : List messageWidget
  successDialogs : List messageWidget
  deriving DecidableEq, Repr

/-- The method `notifier.notify`: `notificationArea.Add(i)`. -/
def verifier.notify (v : verifier) (i : InfoBar) : verifier :=
  { v with notifier := v.notifier ++ [i] }

/-- The constructor `newVerifier`: the widgets are built hidden, the submit
button is made insensitive, the fixed texts are set. -/
def newVerifier (peerName peerJid currentResource : String) (isVerified : Bool) : verifier :=
  { currentResource := currentResource
    session := []
    notifier := []
    peerName := peerName
    peerJid := peerJid
    pinWindow :=
      { d := false
        prompt := i18n.Localf "Share the one-time PIN below with %s" peerName
        pin := "" }
    answerSMPWindow := { d := false, question := "", answer := "", submitButton := false }
    smpFailed := false
    waitingForPeer :=
      { bar := false
        msg := i18n.Localf "Waiting for %s to finish securing the channel..." peerName }
    peerRequestsSMP :=
      { infobar := false
        msg := i18n.Localf
          "%s is waiting for you to finish verifying the security of this channel..." peerName
        verifyButton := [] }
    unverifiedWarning :=
      { infobar := false
        msg := i18n.Local "Make sure no one else is reading your messages" }
    peerIsVerified := isVerified
    errInfoBars := []
    successDialogs := [] }

/-- The method `showAnswerSMPDialog`. -/
def verifier.showAnswerSMPDialog (v : verifier) (question : String) : verifier :=
  let text :=
    if "" = question then
      i18n.Localf "Enter the secret that %s has shared with you" v.peerName
    else if MatchString coyIMQuestion question then
      i18n.Localf "Type the PIN that %s sent you. It can be used only once." v.peerName
    else question
  { v with answerSMPWindow := { v.answerSMPWindow with question := text, answer := "", d := true } }

/-! ## PIN generation -/

/-- The decimal digit character of `d < 10`: `'0' + d`. -/
def digitChar (d : Nat) : Char := Char.ofNat (48 + d)

/-- Decimal digits of `n`, most significant first, pushed in front of `ds`;
`fuel` bounds the number of digits. -/
def decimalCore : Nat → Nat → List Char → List Char
  | 0, _, ds => ds
  | fuel + 1, n, ds =>
      if n / 10 = 0 then digitChar (n % 10) :: ds
      else decimalCore fuel (n / 10) (digitChar (n % 10) :: ds)

/-- The decimal representation of a natural number (`%d`). -/
def decimal (n : Nat) : List Char := decimalCore (n + 1) n []

/-- Left padding with zeros up to a minimal width (the `0` flag). -/
def padZero (width : Nat) (ds : List Char) : List Char :=
  List.replicate (width - ds.length) '0' ++ ds

/-- The call `fmt.Sprintf("%06d", val)` for a non-negative `val`. -/
def sprintf06d (val : Nat) : String := String.mk (padZero 6 (decimal val))

/-- The function `createPIN`; `rnd` is what
`rand.Int(rand.Reader, big.NewInt(1000000))` returned, a value or an
error.  The result is the pair `(string, error)`, `none` standing for
`nil`. -/
def createPIN (rnd : Except String Nat) : String × Option String :=
  match rnd with
  | .error err => ("", some err)
  | .ok val => (sprintf06d val, none)

/-- Reading a string of decimal digits as a number. -/
def parseDecimal (s : String) : Nat :=
  s.data.foldl (fun acc c => acc * 10 + (c.toNat - 48)) 0

/-- Every character is one of `'0'..'9'`. -/
def allDigits (s : String) : Bool := s.data.all (fun c => decide ('0' ≤ c ∧ c ≤ '9'))

/-! ## Operations of the verifier -/

/-- The call `v.unverifiedWarning.infobar.Hide()`, also the body of
`hideUnverifiedWarning` and of the `close_verification` handler. -/
def verifier.hideUnverifiedWarning (v : verifier) : verifier :=
  { v with unverifiedWarning := { v.unverifiedWarning with infobar := false } }

/-- The method `unverifiedWarning.show`: the predicate is called, and only
when it returns false is the info bar added and shown. -/
def unverifiedWarning.show (v : verifier) : verifier :=
  if !v.peerIsVerified then
    let v := v.notify InfoBar.unverifiedWarning
    { v with unverifiedWarning := { v.unverifiedWarning with infobar := true } }
  else v

/-- The method `showUnverifiedWarning`. -/
def verifier.showUnverifiedWarning (v : verifier) : verifier := unverifiedWarning.show v

/-- The method `showNotificationWhenWeCannotGeneratePINForSMP`: a new
`CannotVerifyWithSMP` info bar is built, shown and added. -/
def verifier.showNotificationWhenWeCannotGeneratePINForSMP (v : verifier) (_err : String) :
    verifier :=
  let errInfoBar : messageWidget :=
    { msg := i18n.Local "Unable to verify the channel at this time.", shown := true }
  let i := v.errInfoBars.length
  let v := { v with errInfoBars := v.errInfoBars ++ [errInfoBar] }
  v.notify (InfoBar.errInfoBar i)

/-- The method `smpError`. -/
def verifier.smpError (v : verifier) (err : String) : verifier :=
  v.hideUnverifiedWarning.showNotificationWhenWeCannotGeneratePINForSMP err

/-- The method `showPINDialog`, `rnd` being the outcome of the random
source. -/
def verifier.showPINDialog (v : verifier) (rnd : Except String Nat) : verifier :=
  match createPIN rnd with
  | (_, some err) =>
      let v := { v with pinWindow := { v.pinWindow with d := false } }
      v.smpError err
  | (pin, none) =>
      let v := { v with pinWindow := { v.pinWindow with pin := pin } }
      let v := { v with
        session := v.session ++ [SMPCall.StartSMP v.peerJid v.currentResource question pin] }
      { v with pinWindow := { v.pinWindow with d := true } }

/-- The method `showWaitingForPeerToCompleteSMPDialog`. -/
def verifier.showWaitingForPeerToCompleteSMPDialog (v : verifier) : verifier :=
  let v := v.hideUnverifiedWarning
  let v := { v with waitingForPeer := { v.waitingForPeer with bar := true } }
  v.notify InfoBar.waitingForPeer

/-- The handler `close_share_pin` of the `GeneratePIN` dialog. -/
def verifier.pinWindow_close_share_pin (v : verifier) : verifier :=
  let v := v.showWaitingForPeerToCompleteSMPDialog
  { v with pinWindow := { v.pinWindow with d := false } }

/-- The method `removeInProgressDialogs`. -/
def verifier.removeInProgressDialogs (v : verifier) : verifier :=
  let v := { v with peerRequestsSMP := { v.peerRequestsSMP with infobar := false } }
  let v := { v with waitingForPeer := { v.waitingForPeer with bar := false } }
  let v := { v with pinWindow := { v.pinWindow with d := false } }
  { v with answerSMPWindow := { v.answerSMPWindow with d := false } }

/-- The handler `text_changing` of the `AnswerSMPQuestion` dialog. -/
def verifier.answerSMPWindow_text_changing (v : verifier) : verifier :=
  let answer := v.answerSMPWindow.answer
  { v with answerSMPWindow :=
      { v.answerSMPWindow with submitButton := decide (answer.length > 0) } }

/-- The handler `close_share_pin` of the `AnswerSMPQuestion` dialog (the
submit handler). -/
def verifier.answerSMPWindow_close_share_pin (v : verifier) : verifier :=
  let answer := v.answerSMPWindow.answer
  let v := v.removeInProgressDialogs
  let v := v.showWaitingForPeerToCompleteSMPDialog
  { v with session := v.session ++ [SMPCall.FinishSMP v.peerJid v.currentResource answer] }

/-- The `clicked` handler of the cancel button of the waiting notice. -/
def verifier.waitingForPeer_cancelButton_clicked (v : verifier) : verifier :=
  let v := { v with session := v.session ++ [SMPCall.AbortSMP v.peerJid v.currentResource] }
  let v := v.removeInProgressDialogs
  unverifiedWarning.show v

/-- The `clicked` handler of the cancel button of the peer-request
notification. -/
def verifier.peerRequestsSMP_cancelButton_clicked (v : verifier) : verifier :=
  let v := v.removeInProgressDialogs
  let v := { v with session := v.session ++ [SMPCall.AbortSMP v.peerJid v.currentResource] }
  unverifiedWarning.show v

/-- The method `displayRequestForSecret`: one more handler, capturing
`question`, is connected to the verify button. -/
def verifier.displayRequestForSecret (v : verifier) (question : String) : verifier :=
  let v := v.hideUnverifiedWarning
  let v := { v with peerRequestsSMP :=
    { v.peerRequestsSMP with verifyButton := v.peerRequestsSMP.verifyButton ++ [question] } }
  let v := { v with peerRequestsSMP := { v.peerRequestsSMP with infobar := true } }
  v.notify InfoBar.peerRequestsSMP

/-- A click on the verify button of the peer-request notification: the
connected handlers run in connection order, each calling
`showAnswerSMPDialog` with the question it captured. -/
def verifier.peerRequestsSMP_verifyButton_clicked (v : verifier) : verifier :=
  v.peerRequestsSMP.verifyButton.foldl verifier.showAnswerSMPDialog v

/-- The method `displayVerificationSuccess`: a new `VerificationSucceeded`
dialog is built and shown, the unverified warning is hidden. -/
def verifier.displayVerificationSuccess (v : verifier) : verifier :=
  let d : messageWidget :=
    { msg := i18n.Localf "Hooray! No one is listening in on your conversations with %s" v.peerName
      shown := true }
  let v := { v with successDialogs := v.successDialogs ++ [d] }
  v.hideUnverifiedWarning

/-- The method `displayVerificationFailure`. -/
def verifier.displayVerificationFailure (v : verifier) : verifier :=
  { v with smpFailed := true }

/-- The `clicked` handler of the try-later button of the failure dialog. -/
def verifier.smpFailed_tryLaterButton_clicked (v : verifier) : verifier :=
  let v := unverifiedWarning.show v
  { v with smpFailed := false }

/-! ## Runs -/

/-- The operations of a verifier: its methods, the handlers it connects,
and two actions of its surroundings (typing into the answer entry, a change
of the peer's trust status). -/
inductive Op
  | showPINDialog (rnd : Except String Nat)
  | pinWindow_close_share_pin
  | displayRequestForSecret (question : String)
  | peerRequestsSMP_verifyButton_clicked
  | answerSMPWindow_text_changing
  | answerSMPWindow_close_share_pin
  | waitingForPeer_cancelButton_clicked
  | peerRequestsSMP_cancelButton_clicked
  | displayVerificationSuccess
  | displayVerificationFailure
  | smpFailed_tryLaterButton_clicked
  | removeInProgressDialogs
  | showUnverifiedWarning
  | hideUnverifiedWarning
  | typeAnswer (text : String)
  | trustChanged (isVerified : Bool)

/-- The effect of one operation. -/
def Op.apply : Op → verifier → verifier
  | .showPINDialog rnd, v => v.showPINDialog rnd
  | .pinWindow_close_share_pin, v => v.pinWindow_close_share_pin
  | .displayRequestForSecret q, v => v.displayRequestForSecret q
  | .peerRequestsSMP_verifyButton_clicked, v => v.peerRequestsSMP_verifyButton_clicked
  | .answerSMPWindow_text_changing, v => v.answerSMPWindow_text_changing
  | .answerSMPWindow_close_share_pin, v => v.answerSMPWindow_close_share_pin
  | .waitingForPeer_cancelButton_clicked, v => v.waitingForPeer_cancelButton_clicked
  | .peerRequestsSMP_cancelButton_clicked, v => v.peerRequestsSMP_cancelButton_clicked
  | .displayVerificationSuccess, v => v.displayVerificationSuccess
  | .displayVerificationFailure, v => v.displayVerificationFailure
  | .smpFailed_tryLaterButton_clicked, v => v.smpFailed_tryLaterButton_clicked
  | .removeInProgressDialogs, v => v.removeInProgressDialogs
  | .showUnverifiedWarning, v => v.showUnverifiedWarning
  | .hideUnverifiedWarning, v => v.hideUnverifiedWarning
  | .typeAnswer text, v => { v with answerSMPWindow := { v.answerSMPWindow with answer := text } }
  | .trustChanged b, v => { v with peerIsVerified := b }

/-- The state after a sequence of operations. -/
def run (ops : List Op) (v : verifier) : verifier := ops.foldl (fun v op => op.apply v) v

/-- How many of the PIN dialog, the answer dialog, the waiting notice and
the failure dialog are visible. -/
def verifier.visibleCount (v : verifier) : Nat :=
  v.pinWindow.d.toNat + v.answerSMPWindow.d.toNat + v.waitingForPeer.bar.toNat + v.smpFailed.toNat

/-- Whether an operation that presents one of the four artifacts is run
while the other three are hidden; operations that present none are always
admitted. -/
def Op.disciplined : Op → verifier → Bool
  | .showPINDialog (.ok _), v => !v.answerSMPWindow.d && !v.waitingForPeer.bar && !v.smpFailed
  | .pinWindow_close_share_pin, v => !v.answerSMPWindow.d && !v.smpFailed
  | .peerRequestsSMP_verifyButton_clicked, v =>
      !v.pinWindow.d && !v.waitingForPeer.bar && !v.smpFailed
  | .answerSMPWindow_close_share_pin, v => !v.smpFailed
  | .displayVerificationFailure, v =>
      !v.pinWindow.d && !v.answerSMPWindow.d && !v.waitingForPeer.bar
  | _, _ => true

/-- The state after a sequence of operations each of which is disciplined
in the state it is run in; `none` when one is not. -/
def runDisciplined : List Op → verifier → Option verifier
  | [], v => some v
  | op :: ops, v => if op.disciplined v then runDisciplined ops (op.apply v) else none

/-- The verifier built for the peer Alice, not yet verified. -/
def aliceVerifier : verifier := newVerifier "Alice" "alice@example.org" "phone" false

/-- The six decimal digits of a number below one million, most significant
first. -/
def sixDigits (n : Nat) : List Char :=
  [digitChar (n / 10 / 10 / 10 / 10 / 10 % 10), digitChar (n / 10 / 10 / 10 / 10 % 10),
   digitChar (n / 10 / 10 / 10 % 10), digitChar (n / 10 / 10 % 10),
   digitChar (n / 10 % 10), digitChar (n % 10)]

/-- The text `needle` occurs in `hay` as a contiguous run of characters. -/
def occursIn (needle hay : String) : Prop := needle.data <:+: hay.data

instance (needle hay : String) : Decidable (occursIn needle hay) :=
  inferInstanceAs (Decidable (needle.data <:+: hay.data))

/-! ## The pattern search -/

theorem matchFrom_of_matchHere (prog : List Inst) (a b : List Char)
    (h : matchHere prog b = true) : matchFrom prog (a ++ b) = true := by
  induction a with
  | nil =>
      cases b with
      | nil => simpa [matchFrom] using h
      | cons c cs => simp [matchFrom, h]
  | cons x xs ih => simp [matchFrom, ih]

theorem matchFrom_elim (prog : List Inst) (s : List Char) (h : matchFrom prog s = true) :
    ∃ a b, s = a ++ b ∧ matchHere prog b = true := by
  induction s with
  | nil => exact ⟨[], [], rfl, by simpa [matchFrom] using h⟩
  | cons c cs ih =>
      simp only [matchFrom, Bool.or_eq_true] at h
      rcases h with h | h
      · exact ⟨[], c :: cs, rfl, h⟩
      · obtain ⟨a, b, hab, hb⟩ := ih h
        exact ⟨c :: a, b, by simp [hab], hb⟩

theorem matchHere_literal (l : List Char) (rest : List Inst) (s : List Char)
    (h : matchHere (l.map Inst.char ++ rest) s = true) : l <+: s := by
  induction l generalizing s with
  | nil => exact List.nil_prefix
  | cons c cs ih =>
      cases s with
      | nil => simp [matchHere] at h
      | cons x xs =>
          simp only [List.map_cons, List.cons_append, matchHere, Inst.accepts,
            Bool.and_eq_true, decide_eq_true_eq] at h
          obtain ⟨hx, hrest⟩ := h
          subst hx
          exact (List.prefix_cons_inj x).mpr (ih xs hrest)

theorem matchHere_question_append (b : List Char) :
    matchHere coyIMQuestion (question.data ++ b) = true := by
  rfl

theorem MatchString_of_occursIn (q : String) (h : occursIn question q) :
    MatchString coyIMQuestion q = true := by
  obtain ⟨a, b, hab⟩ := h
  unfold MatchString
  rw [← hab, List.append_assoc]
  exact matchFrom_of_matchHere _ _ _ (matchHere_question_append b)

theorem occursIn_of_MatchString (q : String) (h : MatchString coyIMQuestion q = true) :
    occursIn "Please enter the PIN that I shared with you" q := by
  obtain ⟨a, b, hab, hb⟩ := matchFrom_elim _ _ h
  have hp : "Please enter the PIN that I shared with you".data <+: b :=
    matchHere_literal _ [Inst.anyCharNotNL] b hb
  obtain ⟨c, hc⟩ := hp
  exact ⟨a, c, by rw [hab, ← hc]; simp⟩

/-! ## C1: the prompt of the answer dialog -/

/-- C1, as stated, fails: a question that contains the canonical sentence
and goes on after it is neither empty nor equal to the sentinel, yet the
prompt is the PIN prompt and not the question. -/
theorem showAnswerSMPDialog_longer_question :
    "Please enter the PIN that I shared with you. Thanks" ≠ "" ∧
    "Please enter the PIN that I shared with you. Thanks" ≠ question ∧
    (aliceVerifier.showAnswerSMPDialog
        "Please enter the PIN that I shared with you. Thanks").answerSMPWindow.question
      ≠ "Please enter the PIN that I shared with you. Thanks" ∧
    (aliceVerifier.showAnswerSMPDialog
        "Please enter the PIN that I shared with you. Thanks").answerSMPWindow.question
      = "Type the PIN that Alice sent you. It can be used only once." := by
  decide

/-- C1 (amended): `showAnswerSMPDialog q` sets the prompt to the generic
prompt when `q` is empty, to the PIN prompt when `q` is non-empty and the
canonical sentence occurs in it (in particular when `q` is the sentence),
and to `q` itself when `q` is non-empty and the sentence without its final
full stop does not occur in it. -/
theorem showAnswerSMPDialog_prompt (v : verifier) (q : String) :
    (q = "" → (v.showAnswerSMPDialog q).answerSMPWindow.question
        = "Enter the secret that " ++ v.peerName ++ " has shared with you") ∧
    (q ≠ "" → occursIn question q →
      (v.showAnswerSMPDialog q).answerSMPWindow.question
        = "Type the PIN that " ++ v.peerName ++ " sent you. It can be used only once.") ∧
    (q ≠ "" → ¬ occursIn "Please enter the PIN that I shared with you" q →
      (v.showAnswerSMPDialog q).answerSMPWindow.question = q) := by
  refine ⟨?_, ?_, ?_⟩
  · intro hq
    subst hq
    rfl
  · intro hq hin
    have hne : ¬ ("" = q) := fun h => hq h.symm
    simp only [verifier.showAnswerSMPDialog, if_neg hne, MatchString_of_occursIn q hin, if_true]
    rfl
  · intro hq hnot
    have hne : ¬ ("" = q) := fun h => hq h.symm
    have hm : ¬ (MatchString coyIMQuestion q = true) := fun h => hnot (occursIn_of_MatchString q h)
    simp only [verifier.showAnswerSMPDialog, if_neg hne, if_neg hm]

/-- C1 (amended), at three questions for Alice: the empty one, the canonical
sentence, and a free-form question. -/
theorem showAnswerSMPDialog_prompt_witness :
    (aliceVerifier.showAnswerSMPDialog "").answerSMPWindow.question
      = "Enter the secret that Alice has shared with you" ∧
    (aliceVerifier.showAnswerSMPDialog
        "Please enter the PIN that I shared with you.").answerSMPWindow.question
      = "Type the PIN that Alice sent you. It can be used only once." ∧
    (aliceVerifier.showAnswerSMPDialog "Where did we first meet?").answerSMPWindow.question
      = "Where did we first meet?" :=
  ⟨(showAnswerSMPDialog_prompt aliceVerifier "").1 rfl,
   (showAnswerSMPDialog_prompt aliceVerifier
      "Please enter the PIN that I shared with you.").2.1 (by decide) (by decide),
   (showAnswerSMPDialog_prompt aliceVerifier "Where did we first meet?").2.2
      (by decide) (by decide)⟩

/-! ## C2: submitting an empty answer -/

/-- C2, as stated, fails: once the peer has asked and the answer dialog has
been opened, the answer entry is empty, and the submit handler run in that
state calls `FinishSMP` with the empty answer. -/
theorem submit_empty_answer_calls_FinishSMP :
    (run [Op.displayRequestForSecret "", Op.peerRequestsSMP_verifyButton_clicked]
        aliceVerifier).answerSMPWindow.answer = "" ∧
    (run [Op.displayRequestForSecret "", Op.peerRequestsSMP_verifyButton_clicked]
        aliceVerifier).session = [] ∧
    (run [Op.displayRequestForSecret "", Op.peerRequestsSMP_verifyButton_clicked,
        Op.answerSMPWindow_close_share_pin] aliceVerifier).session
      = [SMPCall.FinishSMP "alice@example.org" "phone" ""] := by
  decide

/-- C2 (amended): with an empty answer entry the submit handler is not
rejected, it makes exactly one more session call, `FinishSMP` with the
empty answer; what keeps an empty answer out is the submit button, which
`text_changing` makes insensitive for an empty entry and which
`newVerifier` builds insensitive. -/
theorem submit_empty_answer (v : verifier) (h : v.answerSMPWindow.answer = "") :
    v.answerSMPWindow_close_share_pin.session
      = v.session ++ [SMPCall.FinishSMP v.peerJid v.currentResource ""] ∧
    v.answerSMPWindow_text_changing.answerSMPWindow.submitButton = false ∧
    (newVerifier v.peerName v.peerJid v.currentResource v.peerIsVerified).answerSMPWindow.submitButton
      = false := by
  refine ⟨?_, ?_, rfl⟩
  · simp [verifier.answerSMPWindow_close_share_pin, verifier.removeInProgressDialogs,
      verifier.showWaitingForPeerToCompleteSMPDialog, verifier.hideUnverifiedWarning,
      verifier.notify, h]
  · simp [verifier.answerSMPWindow_text_changing, h]

/-- C2 (amended), in the state reached when the peer asked a question and
the answer dialog was opened and left empty. -/
theorem submit_empty_answer_witness :
    let v := run [Op.displayRequestForSecret "", Op.peerRequestsSMP_verifyButton_clicked]
      aliceVerifier
    v.answerSMPWindow.answer = "" ∧
    v.answerSMPWindow_close_share_pin.session
      = v.session ++ [SMPCall.FinishSMP v.peerJid v.currentResource ""] ∧
    v.answerSMPWindow_text_changing.answerSMPWindow.submitButton = false :=
  ⟨by decide,
   (submit_empty_answer
      (run [Op.displayRequestForSecret "", Op.peerRequestsSMP_verifyButton_clicked]
        aliceVerifier) (by decide)).1,
   (submit_empty_answer
      (run [Op.displayRequestForSecret "", Op.peerRequestsSMP_verifyButton_clicked]
        aliceVerifier) (by decide)).2.1⟩

/-! ## C3: how many artifacts are visible -/

theorem foldl_showAnswerSMPDialog_frame (qs : List String) (v : verifier) :
    (qs.foldl verifier.showAnswerSMPDialog v).pinWindow = v.pinWindow ∧
    (qs.foldl verifier.showAnswerSMPDialog v).waitingForPeer = v.waitingForPeer ∧
    (qs.foldl verifier.showAnswerSMPDialog v).smpFailed = v.smpFailed := by
  induction qs generalizing v with
  | nil => exact ⟨rfl, rfl, rfl⟩
  | cons q qs ih =>
      simp only [List.foldl_cons]
      obtain ⟨h1, h2, h3⟩ := ih (v.showAnswerSMPDialog q)
      exact ⟨h1, h2, h3⟩

theorem apply_disciplined_visibleCount (op : Op) (v : verifier)
    (hd : op.disciplined v = true) (hv : v.visibleCount ≤ 1) :
    (op.apply v).visibleCount ≤ 1 := by
  cases op with
  | showPINDialog rnd =>
      cases rnd with
      | error e =>
          revert hv
          simp only [Op.apply, verifier.showPINDialog, createPIN, verifier.smpError,
            verifier.hideUnverifiedWarning,
            verifier.showNotificationWhenWeCannotGeneratePINForSMP, verifier.notify,
            verifier.visibleCount]
          cases v.pinWindow.d <;> simp only [Bool.toNat_true, Bool.toNat_false] <;>
            intro hv <;> omega
      | ok val =>
          revert hd
          simp only [Op.disciplined, Op.apply, verifier.showPINDialog, createPIN,
            verifier.visibleCount]
          cases v.answerSMPWindow.d <;> cases v.waitingForPeer.bar <;> cases v.smpFailed <;> simp
  | pinWindow_close_share_pin =>
      revert hd
      simp only [Op.disciplined, Op.apply, verifier.pinWindow_close_share_pin,
        verifier.showWaitingForPeerToCompleteSMPDialog, verifier.hideUnverifiedWarning,
        verifier.notify, verifier.visibleCount]
      cases v.answerSMPWindow.d <;> cases v.smpFailed <;> simp
  | peerRequestsSMP_verifyButton_clicked =>
      obtain ⟨h1, h2, h3⟩ :=
        foldl_showAnswerSMPDialog_frame v.peerRequestsSMP.verifyButton v
      revert hd
      simp only [Op.disciplined, Op.apply, verifier.peerRequestsSMP_verifyButton_clicked,
        verifier.visibleCount, h1, h2, h3]
      cases v.pinWindow.d <;> cases v.waitingForPeer.bar <;> cases v.smpFailed <;>
        cases (List.foldl verifier.showAnswerSMPDialog v
          v.peerRequestsSMP.verifyButton).answerSMPWindow.d <;> simp
  | answerSMPWindow_close_share_pin =>
      revert hd
      simp only [Op.disciplined, Op.apply, verifier.answerSMPWindow_close_share_pin,
        verifier.removeInProgressDialogs,
        verifier.showWaitingForPeerToCompleteSMPDialog, verifier.hideUnverifiedWarning,
        verifier.notify, verifier.visibleCount]
      cases v.smpFailed <;> simp
  | displayVerificationFailure =>
      revert hd
      simp only [Op.disciplined, Op.apply, verifier.displayVerificationFailure,
        verifier.visibleCount]
      cases v.pinWindow.d <;> cases v.answerSMPWindow.d <;> cases v.waitingForPeer.bar <;> simp
  | waitingForPeer_cancelButton_clicked =>
      simp only [Op.apply, verifier.waitingForPeer_cancelButton_clicked,
        verifier.removeInProgressDialogs, unverifiedWarning.show, verifier.notify,
        verifier.visibleCount]
      cases v.peerIsVerified <;> cases v.smpFailed <;> simp
  | peerRequestsSMP_cancelButton_clicked =>
      simp only [Op.apply, verifier.peerRequestsSMP_cancelButton_clicked,
        verifier.removeInProgressDialogs, unverifiedWarning.show, verifier.notify,
        verifier.visibleCount]
      cases v.peerIsVerified <;> cases v.smpFailed <;> simp
  | removeInProgressDialogs =>
      simp only [Op.apply, verifier.removeInProgressDialogs, verifier.visibleCount]
      cases v.smpFailed <;> simp
  | smpFailed_tryLaterButton_clicked =>
      revert hv
      simp only [Op.apply, verifier.smpFailed_tryLaterButton_clicked, unverifiedWarning.show,
        verifier.notify, verifier.visibleCount]
      cases v.peerIsVerified <;> cases v.smpFailed <;>
        simp only [Bool.toNat_true, Bool.toNat_false, Bool.not_true, Bool.not_false, if_true,
          if_false, Bool.false_eq_true] <;> intro hv <;> omega
  | showUnverifiedWarning =>
      revert hv
      simp only [Op.apply, verifier.showUnverifiedWarning, unverifiedWarning.show,
        verifier.notify, verifier.visibleCount]
      cases v.peerIsVerified <;> simp
  | displayRequestForSecret q => exact hv
  | answerSMPWindow_text_changing => exact hv
  | displayVerificationSuccess => exact hv
  | hideUnverifiedWarning => exact hv
  | typeAnswer text => exact hv
  | trustChanged b => exact hv

theorem runDisciplined_visibleCount (ops : List Op) (v w : verifier)
    (hv : v.visibleCount ≤ 1) (h : runDisciplined ops v = some w) : w.visibleCount ≤ 1 := by
  induction ops generalizing v with
  | nil =>
      simp only [runDisciplined, Option.some.injEq] at h
      exact h ▸ hv
  | cons op ops ih =>
      simp only [runDisciplined] at h
      split at h
      · next hd => exact ih (op.apply v) (apply_disciplined_visibleCount op v hd hv) h
      · exact absurd h (by simp)

/-- C3, as stated, fails: from the freshly built verifier, showing the PIN,
closing the PIN dialog and then receiving a failure leaves both the
waiting-for-peer notice and the failure dialog visible. -/
theorem waiting_notice_and_failure_dialog_both_visible :
    aliceVerifier.visibleCount = 0 ∧
    (run [Op.showPINDialog (.ok 42917), Op.pinWindow_close_share_pin,
        Op.displayVerificationFailure] aliceVerifier).waitingForPeer.bar = true ∧
    (run [Op.showPINDialog (.ok 42917), Op.pinWindow_close_share_pin,
        Op.displayVerificationFailure] aliceVerifier).smpFailed = true ∧
    (run [Op.showPINDialog (.ok 42917), Op.pinWindow_close_share_pin,
        Op.displayVerificationFailure] aliceVerifier).visibleCount = 2 := by
  decide

/-- C3 (amended): at most one of the PIN dialog, the answer dialog, the
waiting-for-peer notice and the failure dialog is visible in every state
reached from the freshly built verifier by a sequence of operations in
which each operation that presents one of them (showPINDialog with a
generated PIN, the PIN close handler, the verify click, the answer submit
handler, displayVerificationFailure) is run while the others are hidden. -/
theorem disciplined_run_at_most_one_visible (peerName peerJid currentResource : String)
    (isVerified : Bool) (ops : List Op) (w : verifier)
    (h : runDisciplined ops (newVerifier peerName peerJid currentResource isVerified) = some w) :
    w.visibleCount ≤ 1 :=
  runDisciplined_visibleCount ops _ w (by simp [newVerifier, verifier.visibleCount]) h

/-- C3 (amended), on a run through both flows: the PIN is shown and its
dialog closed, the attempt is cancelled, the peer asks, the answer dialog is
opened and submitted, the in-progress artifacts are removed and the failure
is displayed. -/
theorem disciplined_run_at_most_one_visible_witness :
    (run [Op.showPINDialog (.ok 42917), Op.pinWindow_close_share_pin,
        Op.waitingForPeer_cancelButton_clicked, Op.displayRequestForSecret "",
        Op.peerRequestsSMP_verifyButton_clicked, Op.typeAnswer "042917",
        Op.answerSMPWindow_close_share_pin, Op.removeInProgressDialogs,
        Op.displayVerificationFailure] aliceVerifier).visibleCount ≤ 1 :=
  disciplined_run_at_most_one_visible "Alice" "alice@example.org" "phone" false
    [Op.showPINDialog (.ok 42917), Op.pinWindow_close_share_pin,
      Op.waitingForPeer_cancelButton_clicked, Op.displayRequestForSecret "",
      Op.peerRequestsSMP_verifyButton_clicked, Op.typeAnswer "042917",
      Op.answerSMPWindow_close_share_pin, Op.removeInProgressDialogs,
      Op.displayVerificationFailure] _ (by decide)

/-! ## C4: the PIN is six decimal digits -/

theorem digitChar_toNat (d : Nat) (h : d < 10) : (digitChar d).toNat - 48 = d := by
  interval_cases d <;> rfl

theorem digitChar_isDigit (d : Nat) (h : d < 10) : '0' ≤ digitChar d ∧ digitChar d ≤ '9' := by
  interval_cases d <;> decide

theorem digitChar_of_digit (c : Char) (h : '0' ≤ c ∧ c ≤ '9') :
    48 ≤ c.toNat ∧ c.toNat ≤ 57 ∧ digitChar (c.toNat - 48) = c := by
  obtain ⟨h1, h2⟩ := h
  rw [Char.le_def] at h1 h2
  have h1' : 48 ≤ c.toNat := h1
  have h2' : c.toNat ≤ 57 := h2
  refine ⟨h1', h2', ?_⟩
  unfold digitChar
  rw [show 48 + (c.toNat - 48) = c.toNat by omega]
  exact Char.ofNat_toNat c

theorem decimalCore_fuel (a : Nat) : ∀ (b n : Nat) (ds : List Char),
    n < 10 ^ (a + 1) → n < 10 ^ (b + 1) →
    decimalCore (a + 1) n ds = decimalCore (b + 1) n ds := by
  induction a with
  | zero =>
      intro b n ds ha _
      have h0 : n / 10 = 0 := by omega
      simp [decimalCore, h0]
  | succ a ih =>
      intro b n ds ha hb
      by_cases h0 : n / 10 = 0
      · simp [decimalCore, h0]
      · cases b with
        | zero => omega
        | succ b =>
            have h1 : n / 10 < 10 ^ (a + 1) := by
              rw [Nat.div_lt_iff_lt_mul (by norm_num)]
              calc n < 10 ^ (a + 1 + 1) := ha
                _ = 10 ^ (a + 1) * 10 := by ring
            have h2 : n / 10 < 10 ^ (b + 1) := by
              rw [Nat.div_lt_iff_lt_mul (by norm_num)]
              calc n < 10 ^ (b + 1 + 1) := hb
                _ = 10 ^ (b + 1) * 10 := by ring
            have e1 : decimalCore (a + 1 + 1) n ds
                = decimalCore (a + 1) (n / 10) (digitChar (n % 10) :: ds) := by
              simp [decimalCore, h0]
            have e2 : decimalCore (b + 1 + 1) n ds
                = decimalCore (b + 1) (n / 10) (digitChar (n % 10) :: ds) := by
              simp [decimalCore, h0]
            rw [e1, e2]
            exact ih b (n / 10) _ h1 h2

theorem padZero_decimal (n : Nat) (h : n < 1000000) : padZero 6 (decimal n) = sixDigits n := by
  have hfuel : decimal n = decimalCore 6 n [] := by
    unfold decimal
    exact decimalCore_fuel n 5 n []
      ((Nat.lt_succ_self n).trans (Nat.lt_pow_self (by norm_num : 1 < 10) (n + 1)))
      (by norm_num; exact h)
  rw [hfuel]
  simp only [decimalCore, sixDigits]
  split_ifs with h1 h2 h3 h4 h5 h6
  all_goals
    simp only [padZero, List.length_cons, List.length_nil, List.replicate, Nat.reduceAdd,
      Nat.reduceSub, List.cons_append, List.nil_append, List.cons.injEq, and_true, true_and]
  all_goals repeat' constructor
  all_goals
    show digitChar 0 = digitChar _
    congr 1
    omega

theorem sprintf06d_data (n : Nat) (h : n < 1000000) : (sprintf06d n).data = sixDigits n :=
  padZero_decimal n h

theorem sprintf06d_length (n : Nat) (h : n < 1000000) : (sprintf06d n).length = 6 := by
  show (sprintf06d n).data.length = 6
  rw [sprintf06d_data n h]
  rfl

theorem sprintf06d_allDigits (n : Nat) (h : n < 1000000) : allDigits (sprintf06d n) = true := by
  unfold allDigits
  rw [sprintf06d_data n h]
  simp only [sixDigits, List.all_cons, List.all_nil, Bool.and_true, Bool.and_eq_true,
    decide_eq_true_eq]
  refine ⟨?_, ?_, ?_, ?_, ?_, ?_⟩ <;> exact digitChar_isDigit _ (Nat.mod_lt _ (by norm_num))

theorem parseDecimal_sprintf06d (n : Nat) (h : n < 1000000) : parseDecimal (sprintf06d n) = n := by
  unfold parseDecimal
  rw [sprintf06d_data n h]
  simp only [sixDigits, List.foldl_cons, List.foldl_nil]
  rw [digitChar_toNat _ (Nat.mod_lt _ (by norm_num)), digitChar_toNat _ (Nat.mod_lt _ (by norm_num)),
    digitChar_toNat _ (Nat.mod_lt _ (by norm_num)), digitChar_toNat _ (Nat.mod_lt _ (by norm_num)),
    digitChar_toNat _ (Nat.mod_lt _ (by norm_num)), digitChar_toNat _ (Nat.mod_lt _ (by norm_num))]
  omega

theorem sprintf06d_parseDecimal (s : String) (hlen : s.length = 6) (hd : allDigits s = true) :
    parseDecimal s < 1000000 ∧ sprintf06d (parseDecimal s) = s := by
  obtain ⟨l⟩ := s
  have hl : l.length = 6 := hlen
  match l, hl with
  | [c0, c1, c2, c3, c4, c5], _ =>
    simp only [allDigits, List.all_cons, List.all_nil, Bool.and_true, Bool.and_eq_true,
      decide_eq_true_eq] at hd
    obtain ⟨d0, d1, d2, d3, d4, d5⟩ := hd
    obtain ⟨a0, b0, e0⟩ := digitChar_of_digit c0 d0
    obtain ⟨a1, b1, e1⟩ := digitChar_of_digit c1 d1
    obtain ⟨a2, b2, e2⟩ := digitChar_of_digit c2 d2
    obtain ⟨a3, b3, e3⟩ := digitChar_of_digit c3 d3
    obtain ⟨a4, b4, e4⟩ := digitChar_of_digit c4 d4
    obtain ⟨a5, b5, e5⟩ := digitChar_of_digit c5 d5
    have hp : parseDecimal ⟨[c0, c1, c2, c3, c4, c5]⟩
        = (((((0 * 10 + (c0.toNat - 48)) * 10 + (c1.toNat - 48)) * 10 + (c2.toNat - 48)) * 10
            + (c3.toNat - 48)) * 10 + (c4.toNat - 48)) * 10 + (c5.toNat - 48) := rfl
    have hlt : parseDecimal ⟨[c0, c1, c2, c3, c4, c5]⟩ < 1000000 := by rw [hp]; omega
    refine ⟨hlt, ?_⟩
    have hdata := sprintf06d_data _ hlt
    apply String.ext
    rw [hdata]
    generalize parseDecimal ⟨[c0, c1, c2, c3, c4, c5]⟩ = N at hp hlt
    simp only [sixDigits, List.cons.injEq, and_true]
    refine ⟨?_, ?_, ?_, ?_, ?_, ?_⟩
    · exact (congrArg digitChar (by omega)).trans e0
    · exact (congrArg digitChar (by omega)).trans e1
    · exact (congrArg digitChar (by omega)).trans e2
    · exact (congrArg digitChar (by omega)).trans e3
    · exact (congrArg digitChar (by omega)).trans e4
    · exact (congrArg digitChar (by omega)).trans e5

/-- C4: for a random value `val` below one million `createPIN` returns a
string and no error; the string has exactly six characters, all decimal
digits, and reads as `val`; so distinct values give distinct PINs, and every
string of six digits is the PIN of exactly one value below one million. -/
theorem createPIN_six_digits (val : Nat) (h : val < 1000000) :
    (createPIN (.ok val)).2 = none ∧
    (createPIN (.ok val)).1.length = 6 ∧
    allDigits (createPIN (.ok val)).1 = true ∧
    parseDecimal (createPIN (.ok val)).1 = val ∧
    (∀ w, w < 1000000 → createPIN (.ok w) = createPIN (.ok val) → w = val) ∧
    (∀ s : String, s.length = 6 → allDigits s = true →
      ∃! w, w < 1000000 ∧ createPIN (.ok w) = (s, none)) := by
  refine ⟨rfl, sprintf06d_length val h, sprintf06d_allDigits val h,
    parseDecimal_sprintf06d val h, ?_, ?_⟩
  · intro w hw heq
    have h1 : sprintf06d w = sprintf06d val := congrArg Prod.fst heq
    rw [← parseDecimal_sprintf06d w hw, h1, parseDecimal_sprintf06d val h]
  · intro s hlen hd
    obtain ⟨hlt, hs⟩ := sprintf06d_parseDecimal s hlen hd
    refine ⟨parseDecimal s, ⟨hlt, ?_⟩, ?_⟩
    · show (sprintf06d (parseDecimal s), none) = (s, none)
      rw [hs]
    · rintro w ⟨hw, heq⟩
      have h1 : sprintf06d w = s := congrArg Prod.fst heq
      rw [← h1, parseDecimal_sprintf06d w hw]

/-- C4 at the value 42917, whose PIN is 042917. -/
theorem createPIN_six_digits_witness :
    42917 < 1000000 ∧ createPIN (.ok 42917) = ("042917", none) ∧
    parseDecimal (createPIN (.ok 42917)).1 = 42917 :=
  ⟨by decide, by decide, (createPIN_six_digits 42917 (by decide)).2.2.2.1⟩

/-! ## C5: the local flow up to success -/

/-- C5, as stated, fails: after showPINDialog, the PIN close handler and
displayVerificationSuccess, the waiting-for-peer notice is still visible. -/
theorem waiting_notice_visible_after_success :
    (run [Op.showPINDialog (.ok 42917), Op.pinWindow_close_share_pin,
        Op.displayVerificationSuccess] aliceVerifier).waitingForPeer.bar = true := by
  decide

/-- C5 (amended): from the freshly built verifier, showPINDialog with the
generated PIN `p`, the PIN close handler and displayVerificationSuccess
leave the session with exactly one call, `StartSMP` with the canonical
question and `p`, and the PIN label showing `p`; after the close handler the
PIN dialog is hidden and the waiting notice visible; after
displayVerificationSuccess the success dialog is shown, the unverified
warning, the PIN dialog, the answer dialog and the peer-request notification
are hidden, and the waiting notice is still visible: it is hidden once
removeInProgressDialogs has run. -/
theorem local_flow_to_success (peerName peerJid currentResource : String) (isVerified : Bool)
    (val : Nat) :
    ((((newVerifier peerName peerJid currentResource isVerified).showPINDialog
        (.ok val)).pinWindow_close_share_pin).displayVerificationSuccess).session
      = [SMPCall.StartSMP peerJid currentResource
          "Please enter the PIN that I shared with you." (createPIN (.ok val)).1] ∧
    ((((newVerifier peerName peerJid currentResource isVerified).showPINDialog
        (.ok val)).pinWindow_close_share_pin).displayVerificationSuccess).pinWindow.pin
      = (createPIN (.ok val)).1 ∧
    (((newVerifier peerName peerJid currentResource isVerified).showPINDialog
        (.ok val)).pinWindow_close_share_pin).pinWindow.d = false ∧
    (((newVerifier peerName peerJid currentResource isVerified).showPINDialog
        (.ok val)).pinWindow_close_share_pin).waitingForPeer.bar = true ∧
    ((((newVerifier peerName peerJid currentResource isVerified).showPINDialog
        (.ok val)).pinWindow_close_share_pin).displayVerificationSuccess).successDialogs
      = [{ msg := i18n.Localf "Hooray! No one is listening in on your conversations with %s"
            peerName
           shown := true }] ∧
    ((((newVerifier peerName peerJid currentResource isVerified).showPINDialog
        (.ok val)).pinWindow_close_share_pin).displayVerificationSuccess).unverifiedWarning.infobar
      = false ∧
    ((((newVerifier peerName peerJid currentResource isVerified).showPINDialog
        (.ok val)).pinWindow_close_share_pin).displayVerificationSuccess).pinWindow.d = false ∧
    ((((newVerifier peerName peerJid currentResource isVerified).showPINDialog
        (.ok val)).pinWindow_close_share_pin).displayVerificationSuccess).answerSMPWindow.d
      = false ∧
    ((((newVerifier peerName peerJid currentResource isVerified).showPINDialog
        (.ok val)).pinWindow_close_share_pin).displayVerificationSuccess).peerRequestsSMP.infobar
      = false ∧
    ((((newVerifier peerName peerJid currentResource isVerified).showPINDialog
        (.ok val)).pinWindow_close_share_pin).displayVerificationSuccess).waitingForPeer.bar
      = true ∧
    (((((newVerifier peerName peerJid currentResource isVerified).showPINDialog
        (.ok val)).pinWindow_close_share_pin).displayVerificationSuccess).removeInProgressDialogs
      ).waitingForPeer.bar = false :=
  ⟨rfl, rfl, rfl, rfl, rfl, rfl, rfl, rfl, rfl, rfl, rfl⟩

/-! ## C6: submitting an answer -/

/-- C6: when the answer entry holds a non-empty text `a`, the submit handler
makes exactly one more session call, `FinishSMP` with the peer, the resource
and `a`; afterwards the waiting notice is visible and the answer dialog, the
PIN dialog, the peer-request notification and the unverified warning are
hidden. -/
theorem submit_answer (v : verifier) (a : String) (_ha : a ≠ "")
    (h : v.answerSMPWindow.answer = a) :
    v.answerSMPWindow_close_share_pin.session
      = v.session ++ [SMPCall.FinishSMP v.peerJid v.currentResource a] ∧
    v.answerSMPWindow_close_share_pin.waitingForPeer.bar = true ∧
    v.answerSMPWindow_close_share_pin.answerSMPWindow.d = false ∧
    v.answerSMPWindow_close_share_pin.pinWindow.d = false ∧
    v.answerSMPWindow_close_share_pin.peerRequestsSMP.infobar = false ∧
    v.answerSMPWindow_close_share_pin.unverifiedWarning.infobar = false := by
  subst h
  exact ⟨rfl, rfl, rfl, rfl, rfl, rfl⟩

/-- C6 in the state where the peer asked for the PIN, the answer dialog was
opened and 042917 typed. -/
theorem submit_answer_witness :
    (run [Op.displayRequestForSecret "Please enter the PIN that I shared with you.",
        Op.peerRequestsSMP_verifyButton_clicked, Op.typeAnswer "042917",
        Op.answerSMPWindow_close_share_pin] aliceVerifier).session
      = [SMPCall.FinishSMP "alice@example.org" "phone" "042917"] ∧
    (run [Op.displayRequestForSecret "Please enter the PIN that I shared with you.",
        Op.peerRequestsSMP_verifyButton_clicked, Op.typeAnswer "042917",
        Op.answerSMPWindow_close_share_pin] aliceVerifier).waitingForPeer.bar = true :=
  ⟨(submit_answer
      (run [Op.displayRequestForSecret "Please enter the PIN that I shared with you.",
        Op.peerRequestsSMP_verifyButton_clicked, Op.typeAnswer "042917"] aliceVerifier)
      "042917" (by decide) (by decide)).1,
   (submit_answer
      (run [Op.displayRequestForSecret "Please enter the PIN that I shared with you.",
        Op.peerRequestsSMP_verifyButton_clicked, Op.typeAnswer "042917"] aliceVerifier)
      "042917" (by decide) (by decide)).2.1⟩

/-! ## C7: the cancel handlers -/

/-- C7: each cancel handler makes exactly one more session call,
`AbortSMP` with the peer and the resource; afterwards the peer-request
notification, the waiting notice, the PIN dialog and the answer dialog are
hidden, and the unverified warning is visible when the peer is not
verified. -/
theorem cancel_aborts (v : verifier) :
    (v.waitingForPeer_cancelButton_clicked.session
        = v.session ++ [SMPCall.AbortSMP v.peerJid v.currentResource] ∧
      v.waitingForPeer_cancelButton_clicked.peerRequestsSMP.infobar = false ∧
      v.waitingForPeer_cancelButton_clicked.waitingForPeer.bar = false ∧
      v.waitingForPeer_cancelButton_clicked.pinWindow.d = false ∧
      v.waitingForPeer_cancelButton_clicked.answerSMPWindow.d = false ∧
      (v.peerIsVerified = false →
        v.waitingForPeer_cancelButton_clicked.unverifiedWarning.infobar = true)) ∧
    (v.peerRequestsSMP_cancelButton_clicked.session
        = v.session ++ [SMPCall.AbortSMP v.peerJid v.currentResource] ∧
      v.peerRequestsSMP_cancelButton_clicked.peerRequestsSMP.infobar = false ∧
      v.peerRequestsSMP_cancelButton_clicked.waitingForPeer.bar = false ∧
      v.peerRequestsSMP_cancelButton_clicked.pinWindow.d = false ∧
      v.peerRequestsSMP_cancelButton_clicked.answerSMPWindow.d = false ∧
      (v.peerIsVerified = false →
        v.peerRequestsSMP_cancelButton_clicked.unverifiedWarning.infobar = true)) := by
  simp only [verifier.waitingForPeer_cancelButton_clicked,
    verifier.peerRequestsSMP_cancelButton_clicked, verifier.removeInProgressDialogs,
    unverifiedWarning.show, verifier.notify]
  cases v.peerIsVerified <;> simp

/-- C7 for Alice, not verified: cancelling while waiting for her, and
cancelling her request. -/
theorem cancel_aborts_witness :
    (run [Op.showPINDialog (.ok 42917), Op.pinWindow_close_share_pin]
        aliceVerifier).waitingForPeer_cancelButton_clicked.unverifiedWarning.infobar = true ∧
    (run [Op.displayRequestForSecret ""]
        aliceVerifier).peerRequestsSMP_cancelButton_clicked.unverifiedWarning.infobar = true :=
  ⟨(cancel_aborts (run [Op.showPINDialog (.ok 42917), Op.pinWindow_close_share_pin]
      aliceVerifier)).1.2.2.2.2.2 (by decide),
   (cancel_aborts (run [Op.displayRequestForSecret ""] aliceVerifier)).2.2.2.2.2.2 (by decide)⟩

/-! ## C8: a success event after a cancel -/

/-- C8, as stated, fails: after Alice's verification was started and then
cancelled from the waiting notice, her unverified warning is visible and
there is no success dialog; a success event then hides the warning and
shows a success dialog. -/
theorem late_success_changes_presentation :
    (run [Op.showPINDialog (.ok 42917), Op.pinWindow_close_share_pin,
        Op.waitingForPeer_cancelButton_clicked] aliceVerifier).unverifiedWarning.infobar
      = true ∧
    (run [Op.showPINDialog (.ok 42917), Op.pinWindow_close_share_pin,
        Op.waitingForPeer_cancelButton_clicked] aliceVerifier).successDialogs = [] ∧
    (run [Op.showPINDialog (.ok 42917), Op.pinWindow_close_share_pin,
        Op.waitingForPeer_cancelButton_clicked,
        Op.displayVerificationSuccess] aliceVerifier).unverifiedWarning.infobar = false ∧
    (run [Op.showPINDialog (.ok 42917), Op.pinWindow_close_share_pin,
        Op.waitingForPeer_cancelButton_clicked,
        Op.displayVerificationSuccess] aliceVerifier).successDialogs.map messageWidget.shown
      = [true] := by
  decide

/-- C8 (amended): in the state reached by either cancel handler,
displayVerificationSuccess makes no session call and leaves the waiting
notice, the peer-request notification, the PIN dialog, the answer dialog,
the failure dialog and the success dialogs already there as they are; it is
not a no-op: it shows one new success dialog and hides the unverified
warning. -/
theorem late_success_after_cancel (v s : verifier)
    (hs : s = v.waitingForPeer_cancelButton_clicked ∨
      s = v.peerRequestsSMP_cancelButton_clicked) :
    s.displayVerificationSuccess.session = s.session ∧
    s.displayVerificationSuccess.waitingForPeer = s.waitingForPeer ∧
    s.displayVerificationSuccess.peerRequestsSMP = s.peerRequestsSMP ∧
    s.displayVerificationSuccess.pinWindow = s.pinWindow ∧
    s.displayVerificationSuccess.answerSMPWindow = s.answerSMPWindow ∧
    s.displayVerificationSuccess.smpFailed = s.smpFailed ∧
    s.displayVerificationSuccess.successDialogs
      = s.successDialogs ++
        [{ msg := i18n.Localf "Hooray! No one is listening in on your conversations with %s"
              v.peerName
           shown := true }] ∧
    s.displayVerificationSuccess.unverifiedWarning.infobar = false := by
  have hn : s.peerName = v.peerName := by
    rcases hs with hs | hs <;> subst hs <;>
      simp only [verifier.waitingForPeer_cancelButton_clicked,
        verifier.peerRequestsSMP_cancelButton_clicked, verifier.removeInProgressDialogs,
        unverifiedWarning.show, verifier.notify] <;>
      cases v.peerIsVerified <;> rfl
  refine ⟨rfl, rfl, rfl, rfl, rfl, rfl, ?_, rfl⟩
  rw [← hn]
  rfl

/-- C8 (amended) after Alice's verification was started and cancelled. -/
theorem late_success_after_cancel_witness :
    (run [Op.showPINDialog (.ok 42917), Op.pinWindow_close_share_pin,
        Op.waitingForPeer_cancelButton_clicked,
        Op.displayVerificationSuccess] aliceVerifier).session
      = (run [Op.showPINDialog (.ok 42917), Op.pinWindow_close_share_pin,
        Op.waitingForPeer_cancelButton_clicked] aliceVerifier).session ∧
    (run [Op.showPINDialog (.ok 42917), Op.pinWindow_close_share_pin,
        Op.waitingForPeer_cancelButton_clicked,
        Op.displayVerificationSuccess] aliceVerifier).unverifiedWarning.infobar = false :=
  ⟨(late_success_after_cancel
      (run [Op.showPINDialog (.ok 42917), Op.pinWindow_close_share_pin] aliceVerifier)
      (run [Op.showPINDialog (.ok 42917), Op.pinWindow_close_share_pin,
        Op.waitingForPeer_cancelButton_clicked] aliceVerifier) (Or.inl rfl)).1,
   (late_success_after_cancel
      (run [Op.showPINDialog (.ok 42917), Op.pinWindow_close_share_pin] aliceVerifier)
      (run [Op.showPINDialog (.ok 42917), Op.pinWindow_close_share_pin,
        Op.waitingForPeer_cancelButton_clicked] aliceVerifier) (Or.inl rfl)).2.2.2.2.2.2.2⟩

/-! ## C9: the random source fails -/

/-- C9: when the random source fails with `e`, `createPIN` returns the
empty string and `e`; showPINDialog then makes no session call, leaves the
PIN dialog and the unverified warning hidden, and adds one new shown
advisory, "Unable to verify the channel at this time.", at the end of the
notification area. -/
theorem showPINDialog_random_source_fails (v : verifier) (e : String) :
    createPIN (.error e) = ("", some e) ∧
    (v.showPINDialog (.error e)).session = v.session ∧
    (v.showPINDialog (.error e)).pinWindow.d = false ∧
    (v.showPINDialog (.error e)).unverifiedWarning.infobar = false ∧
    (v.showPINDialog (.error e)).errInfoBars
      = v.errInfoBars ++ [{ msg := "Unable to verify the channel at this time.", shown := true }] ∧
    (v.showPINDialog (.error e)).notifier
      = v.notifier ++ [InfoBar.errInfoBar v.errInfoBars.length] :=
  ⟨rfl, rfl, rfl, rfl, rfl, rfl⟩

/-! ## C10: the unverified warning when a flow starts -/

/-- C10, as stated, fails: with the unverified warning of Alice visible,
showPINDialog with a generated PIN leaves it visible. -/
theorem showPINDialog_keeps_warning_visible :
    aliceVerifier.showUnverifiedWarning.unverifiedWarning.infobar = true ∧
    (aliceVerifier.showUnverifiedWarning.showPINDialog (.ok 42917)).unverifiedWarning.infobar
      = true := by
  decide

/-- C10 (amended): displayRequestForSecret hides the unverified warning at
once, for every question; showPINDialog with a generated PIN leaves the
warning as it was, and it is the PIN close handler, run next, that hides
it. -/
theorem warning_when_flow_starts (v : verifier) (val : Nat) (q : String) :
    (v.displayRequestForSecret q).unverifiedWarning.infobar = false ∧
    (v.showPINDialog (.ok val)).unverifiedWarning = v.unverifiedWarning ∧
    ((v.showPINDialog (.ok val)).pinWindow_close_share_pin).unverifiedWarning.infobar = false :=
  ⟨rfl, rfl, rfl⟩

/-! ## C11: the unverified warning asks the predicate at every call -/

/-- C11: every call of `unverifiedWarning.show`, made directly, through
showUnverifiedWarning, by a cancel handler or by the try-later handler,
goes by the value the predicate has at that call: when it is true the
call leaves the state as it is (nothing is added to the notification area,
the visibility of the warning does not change), when it is false the
warning is added at the end of the notification area and is visible; a
change of the trust status before the call decides the outcome, whatever
the status was earlier. -/
theorem unverifiedWarning_show_by_current_status (v : verifier) :
    (v.peerIsVerified = true →
      unverifiedWarning.show v = v ∧
      v.showUnverifiedWarning = v ∧
      v.waitingForPeer_cancelButton_clicked
        = verifier.removeInProgressDialogs
            { v with session := v.session ++ [SMPCall.AbortSMP v.peerJid v.currentResource] } ∧
      v.peerRequestsSMP_cancelButton_clicked
        = { v.removeInProgressDialogs with
            session := v.session ++ [SMPCall.AbortSMP v.peerJid v.currentResource] } ∧
      v.smpFailed_tryLaterButton_clicked = { v with smpFailed := false }) ∧
    (v.peerIsVerified = false →
      ((unverifiedWarning.show v).notifier = v.notifier ++ [InfoBar.unverifiedWarning] ∧
        (unverifiedWarning.show v).unverifiedWarning.infobar = true) ∧
      (v.showUnverifiedWarning.notifier = v.notifier ++ [InfoBar.unverifiedWarning] ∧
        v.showUnverifiedWarning.unverifiedWarning.infobar = true) ∧
      (v.waitingForPeer_cancelButton_clicked.notifier
          = v.notifier ++ [InfoBar.unverifiedWarning] ∧
        v.waitingForPeer_cancelButton_clicked.unverifiedWarning.infobar = true) ∧
      (v.peerRequestsSMP_cancelButton_clicked.notifier
          = v.notifier ++ [InfoBar.unverifiedWarning] ∧
        v.peerRequestsSMP_cancelButton_clicked.unverifiedWarning.infobar = true) ∧
      (v.smpFailed_tryLaterButton_clicked.notifier
          = v.notifier ++ [InfoBar.unverifiedWarning] ∧
        v.smpFailed_tryLaterButton_clicked.unverifiedWarning.infobar = true)) ∧
    (unverifiedWarning.show ((Op.trustChanged true).apply v) = (Op.trustChanged true).apply v) ∧
    ((unverifiedWarning.show ((Op.trustChanged false).apply v)).notifier
        = v.notifier ++ [InfoBar.unverifiedWarning] ∧
      (unverifiedWarning.show ((Op.trustChanged false).apply v)).unverifiedWarning.infobar
        = true) := by
  refine ⟨?_, ?_, rfl, rfl, rfl⟩
  · intro h
    simp only [verifier.showUnverifiedWarning, verifier.waitingForPeer_cancelButton_clicked,
      verifier.peerRequestsSMP_cancelButton_clicked, verifier.smpFailed_tryLaterButton_clicked,
      verifier.removeInProgressDialogs, unverifiedWarning.show, h]
    simp [h]
  · intro h
    simp only [verifier.showUnverifiedWarning, verifier.waitingForPeer_cancelButton_clicked,
      verifier.peerRequestsSMP_cancelButton_clicked, verifier.smpFailed_tryLaterButton_clicked,
      verifier.removeInProgressDialogs, unverifiedWarning.show, verifier.notify, h]
    simp

/-- C11 for Alice: built while she is not verified, her warning is shown
and added; once she has become verified, a further call and a cancel leave
the notification area and the warning as they are. -/
theorem unverifiedWarning_show_by_current_status_witness :
    (unverifiedWarning.show aliceVerifier).notifier = [InfoBar.unverifiedWarning] ∧
    (unverifiedWarning.show aliceVerifier).unverifiedWarning.infobar = true ∧
    unverifiedWarning.show (run [Op.trustChanged true] aliceVerifier)
      = run [Op.trustChanged true] aliceVerifier ∧
    (run [Op.trustChanged true, Op.showPINDialog (.ok 42917), Op.pinWindow_close_share_pin,
        Op.waitingForPeer_cancelButton_clicked] aliceVerifier).unverifiedWarning.infobar
      = false :=
  ⟨((unverifiedWarning_show_by_current_status aliceVerifier).2.1 (by decide)).1.1,
   ((unverifiedWarning_show_by_current_status aliceVerifier).2.1 (by decide)).1.2,
   ((unverifiedWarning_show_by_current_status
      (run [Op.trustChanged true] aliceVerifier)).1 (by decide)).1,
   (congrArg (fun w => w.unverifiedWarning.infobar)
      ((unverifiedWarning_show_by_current_status
        (run [Op.trustChanged true, Op.showPINDialog (.ok 42917),
          Op.pinWindow_close_share_pin] aliceVerifier)).1 (by decide)).2.2.1).trans
      (by decide)⟩

end Coyim
